import Mathlib

/-!
Verification development for the pet-feeder backend (`src/app.py`).

Shallow embedding notes.

* Machine clock: `datetime.now().strftime('%Y-%m-%d %H:%M:%S')` and SQLite's
  `CURRENT_TIMESTAMP` produce second-granularity timestamps.  We model an
  instant as a `Nat` counting seconds, passed explicitly to every handler
  (`now`); two calls inside the same wall-clock second receive the same `Nat`,
  exactly as two `strftime` results inside one second are the same string.
  The calendar date of an instant (`date.today().isoformat()`, SQL `DATE(..)`)
  is `dateOf now = now / 86400`.

* Database: the runtime schema is the one produced by
  `src/setup_database.py` (`feeders`, `logs`, `daily_stats` with
  `UNIQUE(feeder_id, date)` and an autoincrement surrogate id), on top of
  which `app.py`'s `init_db` `CREATE TABLE IF NOT EXISTS` statements are
  no-ops; `logs` additionally carries the `feed_type` column that `app.py`
  reads and writes.  Tables are lists of rows kept in rowid (insertion)
  order, which is also ascending primary-key order since ids only grow, so
  `ORDER BY feeder_id ASC` is the stored order.  A bare SQLite
  `SELECT ... WHERE p` + `fetchone()` returns the first matching row in
  rowid order, modelled by `List.find?`; `INSERT OR REPLACE` deletes the
  rows conflicting on a unique key and appends a fresh row at the end.

* Outbound HTTP: the two device endpoints are an oracle
  `device : DeviceCall → Option Nat` giving the HTTP status code of each
  call (`none` = transport error / timeout, i.e. a `requests`
  `RequestException`).  Handlers return the list of device calls they
  issued, in order, so that "command sent" is observable.

* Python details kept: `request.form.get` defaults, `data.get` defaults,
  falsy-string tests (`if not name`), `str.split(':')` two-element unpacking
  raising `ValueError`, `int(...)` parsing (modelled for optionally signed
  digit strings; exotic forms such as underscores or unicode digits are not
  needed by any claim), `str.isdigit`, and the fact that a plain
  `Exception` raised for a non-200 device reply is NOT caught by the
  `except requests.exceptions.RequestException` handler.
-/

/-- Calendar date (day number) of a second-granularity instant. -/
def dateOf (t : Nat) : Nat := t / 86400

/-!
The Python string primitives used by `add_feeder` are modelled by
structural recursion over `String.data` (the library's own `String.splitOn`
etc. are defined by well-founded recursion on byte positions, which the
kernel cannot evaluate).
-/

/-- Worker for `pySplit`: accumulates the current (reversed) chunk. -/
def chSplitAux (sep : Char) : List Char → List Char → List (List Char)
  | [], acc => [acc.reverse]
  | c :: rest, acc =>
    if c == sep then acc.reverse :: chSplitAux sep rest []
    else chSplitAux sep rest (c :: acc)

/-- Python `s.split(sep)` for a one-character separator: `"a:b:c"` gives
three parts, `"abc"` gives `["abc"]`, `"a:"` gives `["a", ""]`. -/
def pySplit (sep : Char) (s : String) : List String :=
  (chSplitAux sep s.data []).map (fun cs => String.mk cs)

/-- Python `sep in s` for a one-character separator. -/
def pyContains (sep : Char) (s : String) : Bool :=
  s.data.any (fun c => c == sep)

/-- Python `str.isdigit` for ASCII strings: nonempty and all digits. -/
def isDigits (t : String) : Bool :=
  !(t.data.isEmpty) && t.data.all (fun c => c.isDigit)

/-- Numeric value of an ASCII digit string. -/
def digitsToNat (l : List Char) : Nat :=
  l.foldl (fun n c => n * 10 + (c.toNat - 48)) 0

/-- ASCII whitespace, for Python `str.strip`'s default behaviour. -/
def isSpaceChar (c : Char) : Bool :=
  c == ' ' || c == '\t' || c == '\n' || c == '\r'

/-- Python `int(t)` on a string: optional surrounding whitespace, an
optional sign, then digits; `none` models `ValueError`. -/
def pyInt? (t : String) : Option Int :=
  let u := ((t.data.dropWhile isSpaceChar).reverse.dropWhile isSpaceChar).reverse
  match u with
  | '-' :: rest =>
    if !(rest.isEmpty) && rest.all (fun c => c.isDigit) then
      some (-(digitsToNat rest : Int))
    else none
  | '+' :: rest =>
    if !(rest.isEmpty) && rest.all (fun c => c.isDigit) then
      some ((digitsToNat rest : Int))
    else none
  | _ =>
    if !(u.isEmpty) && u.all (fun c => c.isDigit) then
      some ((digitsToNat u : Int))
    else none

/-- One outbound HTTP call to a device, as issued by `app.py`:
`probe` is `GET http://ip:port/get_status` (from `check_feeder_online`),
`dispense` is `POST http://ip:port/trigger_dispensing` with body
`amount=...` (from `trigger_feeding_by_feeder`).  The timeout (seconds)
is part of the call. -/
inductive DeviceCall where
  | probe (ip : String) (port : Int) (timeout : Nat)
  | dispense (ip : String) (port : Int) (amount : Int) (timeout : Nat)
deriving DecidableEq, Repr

/-- The network oracle: HTTP status code of a call, `none` = transport
error (timeout, connection refused, ...). -/
abbrev Device := DeviceCall → Option Nat

/-- A row of the `feeders` table (`setup_database.py`). -/
structure Feeder where
  feeder_id : Nat
  feeder_name : String
  esp32_ip : String
  esp32_port : Int
  esp_cam_ip : Option String
  esp_cam_port : Option Int
  location : String
  max_capacity_g : Nat
  current_weight_g : Int
  is_active : Bool
  is_online : Bool
  last_online : Option Nat
  last_offline : Option Nat
  wifi_strength : Nat
  created_at : Nat
  updated_at : Option Nat
deriving DecidableEq, Repr

/-- A row of the `logs` table.  `feeding_id`, `weight`, `image_path` and
`feed_type` are nullable columns (`none` = SQL NULL). -/
structure LogRow where
  id : Nat
  feeder_id : Nat
  feeding_id : Option String
  timestamp : Nat
  source : String
  weight : Option Int
  amount : Int
  event_type : String
  image_path : Option String
  feed_type : Option String
deriving DecidableEq, Repr

/-- A row of the `daily_stats` table (surrogate id, `UNIQUE(feeder_id, date)`;
the columns `app.py` never touches are omitted). -/
structure DailyRow where
  id : Nat
  feeder_id : Nat
  date : Nat
  total_feedings : Nat
deriving DecidableEq, Repr

/-- The database state: the three tables touched by the handlers under
verification, plus the autoincrement counters. -/
structure St where
  feeders : List Feeder
  nextFeederId : Nat
  logs : List LogRow
  nextLogId : Nat
  daily : List DailyRow
  nextDailyId : Nat
deriving DecidableEq, Repr

/-- Freshly created database (autoincrement ids start at 1). -/
def emptySt : St :=
  { feeders := [], nextFeederId := 1, logs := [], nextLogId := 1,
    daily := [], nextDailyId := 1 }

/-- The countable kinds: `event_type in ('MANUAL_FEED', 'SCHEDULED_FEED', 'BUTTON_FEED')` —
the countable kinds. -/
def isCountable (k : String) : Bool :=
  k == ("MANUAL_FEED") || k == ("SCHEDULED_FEED") || k == ("BUTTON_FEED")

/-- The query `SELECT total_feedings FROM daily_stats WHERE feeder_id = fid AND date = d`
followed by `fetchone`, with `COALESCE(..., 0)`. -/
def dailyCount (s : St) (fid d : Nat) : Nat :=
  ((s.daily.find? (fun r => r.feeder_id == fid && r.date == d)).map
    (fun r => r.total_feedings)).getD 0

/-- The query `SELECT total_feedings FROM daily_stats WHERE date = d` + `fetchone`:
first matching row in rowid order, regardless of feeder. -/
def firstDailyByDate (s : St) (d : Nat) : Option DailyRow :=
  s.daily.find? (fun r => r.date == d)

/-- Model of `check_feeder_online(ip, port, timeout=2)`: GET the status endpoint,
reachable iff HTTP 200; every error collapses to `false`. -/
def check_feeder_online (device : Device) (ip : String) (port : Int)
    (timeout : Nat := 2) : Bool :=
  device (DeviceCall.probe ip port timeout) == some 200

/-- The SET clause of the online branch of `update_feeder_status`:
`is_online = 1, last_online = now, updated_at = now`. -/
def onlineStamp (now : Nat) (f : Feeder) : Feeder :=
  { f with is_online := true, last_online := some now, updated_at := some now }

/-- The SET clause of the offline branch of `update_feeder_status`:
`is_online = 0, last_offline = now, updated_at = now`. -/
def offlineStamp (now : Nat) (f : Feeder) : Feeder :=
  { f with is_online := false, last_offline := some now, updated_at := some now }

/-- Model of `update_feeder_status(feeder_id, is_online)`: stamp `last_online`
(when online) or `last_offline` (when offline) plus `updated_at` on every
row matching the id; a missing id updates nothing. -/
def update_feeder_status (fid : Nat) (isOnline : Bool) (now : Nat) (s : St) : St :=
  { s with feeders := s.feeders.map (fun f =>
      if f.feeder_id == fid then
        if isOnline then onlineStamp now f else offlineStamp now f
      else f) }

/-- JSON payload of `add_feeder` (`data.get` fields; a missing/None `name`
or `ip_address` behaves like `""` under Python's falsiness test). -/
structure AddForm where
  name : String
  ip_address : String
  location : Option String
  max_capacity_g : Option Nat
deriving DecidableEq, Repr

/-- Outcome of `add_feeder`: HTTP 200 with the new id, HTTP 400 with an
error message (the `ValidationError` surface), or the generic HTTP 500
from the outer `except Exception` handler. -/
inductive AddResult where
  | ok (feeder_id : Nat)
  | badRequest (msg : String)
  | serverError
deriving DecidableEq, Repr

/-- The `ip, port = ip_address.split(':')` / default-port-80 step of
`add_feeder`.  `none` models the uncaught `ValueError` (more than one
colon, or `int(port)` failing). -/
def parseAddr (a : String) : Option (String × Int) :=
  if pyContains ':' a then
    match pySplit ':' a with
    | [ip, p] => (pyInt? p).map (fun n => (ip, n))
    | _ => none
  else some (a, 80)

/-- One octet check: `part.isdigit() and 0 <= int(part) <= 255`. -/
def validOctet (p : String) : Bool :=
  isDigits p && decide (digitsToNat p.data ≤ 255)

/-- Host check of `add_feeder`: exactly four dot-separated octets. -/
def validHost (ip : String) : Bool :=
  ((pySplit '.' ip).length == 4) && (pySplit '.' ip).all validOctet

/-- The row `add_feeder`'s INSERT creates: `is_active=1`, `is_online=0`,
omitted columns take their schema defaults (`esp_cam_port` 80,
`last_online`/`updated_at` CURRENT_TIMESTAMP, `last_offline` NULL). -/
def newFeederRow (form : AddForm) (ip : String) (port : Int) (fid now : Nat) : Feeder :=
  { feeder_id := fid, feeder_name := form.name, esp32_ip := ip, esp32_port := port,
    esp_cam_ip := none, esp_cam_port := some 80,
    location := form.location.getD ("Main Area"),
    max_capacity_g := form.max_capacity_g.getD 5000,
    current_weight_g := 0, is_active := true, is_online := false,
    last_online := some now, last_offline := none, wifi_strength := 0,
    created_at := now, updated_at := some now }

/-- Model of `add_feeder` (`register`): missing fields → 400; parse `ip[:port]`
(default 80); malformed host → 400; duplicate `esp32_ip` among active
rows → 400; otherwise insert and return the new id. -/
def add_feeder (form : AddForm) (now : Nat) (s : St) : St × AddResult :=
  if form.name == ("") || form.ip_address == ("") then
    (s, AddResult.badRequest ("Missing required fields"))
  else
    match parseAddr form.ip_address with
    | none => (s, AddResult.serverError)
    | some (ip, port) =>
      if !(validHost ip) then (s, AddResult.badRequest ("Invalid IP address format"))
      else if s.feeders.any (fun f => f.esp32_ip == ip && f.is_active) then
        (s, AddResult.badRequest ("A feeder with this IP already exists"))
      else
        ({ s with feeders := s.feeders ++ [newFeederRow form ip port s.nextFeederId now],
                  nextFeederId := s.nextFeederId + 1 },
         AddResult.ok s.nextFeederId)

/-- Outcome of `delete_feeder`. -/
inductive DeleteResult where
  | notFound
  | ok
deriving DecidableEq, Repr

/-- The SET clause of `delete_feeder`: `is_active = 0, updated_at = now`. -/
def softDelete (now : Nat) (f : Feeder) : Feeder :=
  { f with is_active := false, updated_at := some now }

/-- Model of `delete_feeder` (`deactivate`): 404 when no row has the id, else a
soft delete (`is_active = 0`, `updated_at` stamped). -/
def delete_feeder (fid : Nat) (now : Nat) (s : St) : St × DeleteResult :=
  match s.feeders.find? (fun f => f.feeder_id == fid) with
  | none => (s, DeleteResult.notFound)
  | some _ =>
    ({ s with feeders := s.feeders.map (fun f =>
        if f.feeder_id == fid then softDelete now f else f) },
     DeleteResult.ok)

/-- One element of the JSON list `get_feeders` returns.  It mirrors the
response dictionary of the handler: `is_online` is the fresh probe
verdict, `last_online` is the value fetched before any update, and the
response carries no `last_offline` field at all. -/
structure FeederEntry where
  id : Nat
  name : String
  ip_address : String
  esp32_ip : String
  esp32_port : Int
  esp_cam_ip : Option String
  esp_cam_port : Option Int
  location : String
  max_capacity_g : Nat
  current_weight_g : Int
  is_active : Bool
  is_online : Bool
  last_online : Option Nat
  wifi_strength : Nat
  created_at : Nat
deriving DecidableEq, Repr

/-- The response dictionary built for one fetched feeder row. -/
def mkFeederEntry (f : Feeder) (online : Bool) : FeederEntry :=
  { id := f.feeder_id, name := f.feeder_name,
    ip_address := f.esp32_ip ++ (":") ++ toString f.esp32_port,
    esp32_ip := f.esp32_ip, esp32_port := f.esp32_port,
    esp_cam_ip := f.esp_cam_ip, esp_cam_port := f.esp_cam_port,
    location := f.location, max_capacity_g := f.max_capacity_g,
    current_weight_g := f.current_weight_g, is_active := f.is_active,
    is_online := online, last_online := f.last_online,
    wifi_strength := f.wifi_strength, created_at := f.created_at }

/-- The per-row loop of `get_feeders` over the fetched active rows:
probe (2s timeout), persist the verdict via `update_feeder_status` only
when it differs from the stored flag, and emit the response entry. -/
def get_feeders_aux (device : Device) (now : Nat) :
    List Feeder → St → St × List FeederEntry
  | [], s => (s, [])
  | f :: rest, s =>
    let online := check_feeder_online device f.esp32_ip f.esp32_port 2
    let s' := if online == f.is_online then s
              else update_feeder_status f.feeder_id online now s
    let r := get_feeders_aux device now rest s'
    (r.1, mkFeederEntry f online :: r.2)

/-- Model of `get_feeders` (`listActive`): fetch the active rows (stored order =
ascending `feeder_id`), then run the probe-and-reconcile loop. -/
def get_feeders (device : Device) (now : Nat) (s : St) : St × List FeederEntry :=
  get_feeders_aux device now (s.feeders.filter (fun f => f.is_active)) s

/-- Outcome of `trigger_feeding_by_feeder`: 404, 200 with id and amount,
503 after a transport error (`RequestException`), or the generic 500 the
outer handler produces for the plain `Exception` raised on a non-200
device status. -/
inductive TrigResult where
  | notFound
  | ok (feeder_id : Nat) (amount : Int)
  | connectError
  | serverError
deriving DecidableEq, Repr

/-- Model of `trigger_feeding_by_feeder(feeder_id)` with form amount `amount`:
look up the active feeder (404 if absent), POST the dispense command with
timeout 5 — with NO prior probe — and on HTTP 200 insert the MANUAL_FEED
log row and upsert `daily_stats` for `(feeder_id, today)`
(`INSERT OR REPLACE` keyed by the `UNIQUE(feeder_id, date)` constraint).
A transport error marks the feeder offline and returns 503; a non-200
status raises a plain `Exception` that the `RequestException` handler
does not catch, so the outer handler returns 500 without any state
change.  The third component is the trace of device calls issued. -/
def trigger_feeding_by_feeder (fid : Nat) (amount : Int) (device : Device)
    (now : Nat) (s : St) : St × TrigResult × List DeviceCall :=
  match s.feeders.find? (fun f => f.feeder_id == fid && f.is_active) with
  | none => (s, TrigResult.notFound, [])
  | some f =>
    let call := DeviceCall.dispense f.esp32_ip f.esp32_port amount 5
    match device call with
    | some code =>
      if code == 200 then
        let row : LogRow :=
          { id := s.nextLogId, feeder_id := fid, feeding_id := none, timestamp := now,
            source := ("Manual - ") ++ f.feeder_name, weight := none, amount := amount,
            event_type := ("MANUAL_FEED"), image_path := none, feed_type := none }
        let s1 := { s with logs := s.logs ++ [row], nextLogId := s.nextLogId + 1 }
        let d := dateOf now
        let seed := dailyCount s1 fid d
        let s2 := { s1 with
          daily := s1.daily.filter (fun r => !(r.feeder_id == fid && r.date == d)) ++
            [{ id := s1.nextDailyId, feeder_id := fid, date := d, total_feedings := seed + 1 }],
          nextDailyId := s1.nextDailyId + 1 }
        (s2, TrigResult.ok fid amount, [call])
      else (s, TrigResult.serverError, [call])
    | none => (update_feeder_status fid false now s, TrigResult.connectError, [call])

/-- Form fields of `log_data`, with the handler's defaults.  `weight` is
`request.form.get('weight')` (NULL when absent); the numeric fields reach
the INTEGER columns through SQLite's type coercion and are modelled as
integers directly. -/
structure LogForm where
  weight : Option Int
  source : String
  amount : Int
  event : String
  feed_type : String
  feeding_id : String
deriving DecidableEq, Repr

/-- Model of `log_data` (`recordEvent`): insert the log row (`feeder_id` takes the
column default 1 — the INSERT does not list it), then, for a countable
kind, run
`INSERT OR REPLACE INTO daily_stats (date, total_feedings) VALUES (d,
COALESCE((SELECT total_feedings FROM daily_stats WHERE date = d), 0)+1)`:
the seed is read from the FIRST row of that date regardless of feeder,
and the inserted row's `feeder_id` is the column default 1, replacing the
previous `(1, d)` row via `UNIQUE(feeder_id, date)`. -/
def log_data (form : LogForm) (now : Nat) (s : St) : St :=
  let row : LogRow :=
    { id := s.nextLogId, feeder_id := 1, feeding_id := some form.feeding_id,
      timestamp := now, source := form.source, weight := form.weight,
      amount := form.amount, event_type := form.event, image_path := none,
      feed_type := some form.feed_type }
  let s1 := { s with logs := s.logs ++ [row], nextLogId := s.nextLogId + 1 }
  if isCountable form.event then
    let d := dateOf now
    let seed := ((firstDailyByDate s1 d).map (fun r => r.total_feedings)).getD 0
    { s1 with
      daily := s1.daily.filter (fun r => !(r.feeder_id == 1 && r.date == d)) ++
        [{ id := s1.nextDailyId, feeder_id := 1, date := d, total_feedings := seed + 1 }],
      nextDailyId := s1.nextDailyId + 1 }
  else s1

/-- Model of `get_daily_stats` (`dailyTotals` for the current date): the stored
count is read from the first `daily_stats` row of the date (no feeder
filter); the dispensed total is recomputed live as
`SUM(amount)` over the countable log rows of the date. -/
def get_daily_stats (now : Nat) (s : St) : Nat × Int :=
  (((s.daily.find? (fun r => r.date == dateOf now)).map
      (fun r => r.total_feedings)).getD 0,
   (s.logs.filter (fun r => (dateOf r.timestamp == dateOf now) && isCountable r.event_type)).foldl
      (fun acc r => acc + r.amount) 0)

/-- Model of `delete_log(log_id)` (`deleteOne`): `DELETE FROM logs WHERE id = ?`. -/
def delete_log (logId : Nat) (s : St) : St :=
  { s with logs := s.logs.filter (fun r => r.id != logId) }

/-- Model of `delete_all_logs` (`deleteAll`): `DELETE FROM logs`. -/
def delete_all_logs (s : St) : St :=
  { s with logs := [] }

/-- The query `SELECT MAX(id) FROM logs` (NULL on an empty table). -/
def maxLogId (l : List LogRow) : Option Nat := (l.map (fun r => r.id)).max?

/-- Filename `upload_photo` writes; without a correlation token it is
derived from the clock (`strftime('%Y%m%d_%H%M%S')`, abstracted to the
clock value). -/
def upload_filename (feeding_id ctype : String) (now : Nat) : String :=
  if feeding_id == ("") then toString now ++ (".jpg")
  else feeding_id ++ ("_capture") ++ ctype ++ (".jpg")

/-- The `image_path` value written into the patched log rows. -/
def upload_path (feeding_id ctype : String) (now : Nat) : String :=
  ("/static/uploads/") ++ upload_filename feeding_id ctype now

/-- The UPDATE's SET clause of `upload_photo`: `image_path = p`. -/
def withImage (p : String) (r : LogRow) : LogRow :=
  { r with image_path := some p }

/-- Model of `upload_photo` (`attachImage`): with a (non-empty) token, patch
`image_path` on every log row whose `feeding_id` equals the token;
without one, patch the row with the maximal id; when nothing matches
(including an empty table, where `MAX(id)` is NULL) the UPDATE touches no
row and the handler still returns 200. -/
def upload_photo (feeding_id ctype : String) (now : Nat) (s : St) : St :=
  let path := upload_path feeding_id ctype now
  if feeding_id == ("") then
    match maxLogId s.logs with
    | none => s
    | some m =>
      { s with logs := s.logs.map (fun r =>
          if r.id == m then withImage path r else r) }
  else
    { s with logs := s.logs.map (fun r =>
        if r.feeding_id == some feeding_id then withImage path r else r) }

/-!
Concrete fixtures used by the scenario theorems and counterexamples.
All of them are reachable states: they are built exclusively by applying
the handlers above to the fresh database.
-/

/-- A device that answers every call with HTTP 200. -/
def deviceAll200 : Device := fun _ => some 200

/-- A device that never answers (every call is a transport error). -/
def deviceNoReply : Device := fun _ => none

/-- A device that answers every call with HTTP 500. -/
def deviceAll500 : Device := fun _ => some 500

/-- Registration payload with only the required fields. -/
def addForm (n a : String) : AddForm :=
  { name := n, ip_address := a, location := none, max_capacity_g := none }

/-- The `log_data` form for an event of kind `ev` dispensing `amt`, with the
handler's defaults for the other fields. -/
def mkLogForm (amt : Int) (ev : String) : LogForm :=
  { weight := none, source := ("ESP32"), amount := amt, event := ev,
    feed_type := ("Manual"), feeding_id := ("") }

/-- One feeder registered (id 1, host 10.0.0.1). -/
def st1 : St := (add_feeder (addForm ("Module A") ("10.0.0.1")) 0 emptySt).1

/-- Two feeders registered (ids 1 and 2). -/
def st2 : St := (add_feeder (addForm ("Module B") ("10.0.0.2")) 0 st1).1

/-- After a successful dispense on feeder 2 at instant 3: `daily_stats`
holds one row, `(feeder 2, day 0, count 1)`. -/
def stTrig2 : St := (trigger_feeding_by_feeder 2 50 deviceAll200 3 st2).1

/-- The spec's scenario state: feeder "Module 1" at 192.168.1.10:80 just
registered (stored offline, `last_offline` NULL). -/
def stReg : St := (add_feeder (addForm ("Module 1") ("192.168.1.10:80")) 0 emptySt).1

/-- Three countable events recorded through `log_data` on day 0 with
amounts 50, 50 and 100. -/
def st3events : St :=
  log_data (mkLogForm 100 ("MANUAL_FEED")) 0
    (log_data (mkLogForm 50 ("MANUAL_FEED")) 0
      (log_data (mkLogForm 50 ("MANUAL_FEED")) 0 emptySt))

/-!  General-purpose list lemmas used by several claim proofs. -/

/-- A search (`find?`) misses a list when the predicate fails everywhere on it. -/
theorem find?_eq_none_of_forall {α : Type} {p : α → Bool} {l : List α}
    (h : ∀ x ∈ l, p x = false) : l.find? p = none :=
  List.find?_eq_none.mpr (fun x hx => by simp [h x hx])

/-- Filtering away exactly the rows matching `p` makes `find? p` miss. -/
theorem find?_filter_not_self {α : Type} (p : α → Bool) (l : List α) :
    (l.filter (fun x => !(p x))).find? p = none := by
  apply find?_eq_none_of_forall
  intro x hx
  have := (List.mem_filter.mp hx).2
  simpa using this

/-- Appending one element the predicate rejects does not change `find?`. -/
theorem find?_append_single_false {α : Type} {p : α → Bool} {a : α}
    (l : List α) (h : p a = false) : (l ++ [a]).find? p = l.find? p := by
  rw [List.find?_append]
  cases hl : l.find? p with
  | none => simp [List.find?, h]
  | some b => rfl

/-- When `find?` misses the left part, it continues on the right part. -/
theorem find?_append_of_none {α : Type} {p : α → Bool} {l₁ l₂ : List α}
    (h : l₁.find? p = none) : (l₁ ++ l₂).find? p = l₂.find? p := by
  rw [List.find?_append, h, Option.none_or]

/-- Filtering away rows that all fail `p` does not change `find? p`. -/
theorem find?_filter_of_disjoint {α : Type} {p q : α → Bool} (l : List α)
    (h : ∀ x, q x = true → p x = false) :
    (l.filter (fun x => !(q x))).find? p = l.find? p := by
  induction l with
  | nil => rfl
  | cons a t ih =>
    by_cases hq : q a = true
    · have hp := h a hq
      simp [List.filter, hq, List.find?, hp, ih]
    · have hq' : q a = false := by revert hq; cases q a <;> simp
      cases hpa : p a with
      | true => simp [List.filter, hq', List.find?, hpa]
      | false => simp [List.filter, hq', List.find?, hpa, ih]

/-- A search (`find?`) only depends on the predicate's values on the list. -/
theorem find?_congr_on {α : Type} {p q : α → Bool} {l : List α}
    (h : ∀ x ∈ l, p x = q x) : l.find? p = l.find? q := by
  induction l with
  | nil => rfl
  | cons a t ih =>
    have ha := h a (by simp)
    have ht := ih (fun x hx => h x (by simp [hx]))
    simp [List.find?, ha, ht]

/-- A map that fixes every member of a list is the identity on it. -/
theorem map_eq_self_of_forall {α : Type} {f : α → α} {l : List α}
    (h : ∀ x ∈ l, f x = x) : l.map f = l := by
  induction l with
  | nil => rfl
  | cons a t ih =>
    simp only [List.map, h a (by simp)]
    rw [ih (fun x hx => h x (by simp [hx]))]

/-- Folding `+ amount` over log rows equals the seed plus the sum. -/
theorem foldl_add_amount (l : List LogRow) (c : Int) :
    l.foldl (fun acc r => acc + r.amount) c = c + ((l.map (fun r => r.amount)).sum) := by
  induction l generalizing c with
  | nil => simp
  | cons a t ih => simp [List.foldl, ih, add_assoc]

/-!
## Claim C1

The spec says the DailyAggregate is identified by the (feeder id, date)
pair and that `recordEvent` (`log_data`) upserts *that pair's* aggregate:
insert with count 1 when absent, else increment by 1.  In the code the
`daily_stats` write of `log_data` ignores the event's feeder entirely:
the inserted row takes the column default `feeder_id = 1` and its count
is seeded from the FIRST existing row of that date, whatever feeder owns
it.  So when another feeder already has a row for the date, a `log_data`
event creates feeder 1's row with that other feeder's count + 1 instead
of 1.
-/

/-- Claim C1 as stated (its per-pair upsert clause): a countable
`log_data` event — whose row belongs to feeder 1, the column default —
bumps the (feeder 1, today) aggregate by exactly one (1 when absent) and
leaves every other (feeder, date) aggregate unchanged. -/
def C1_claim : Prop :=
  ∀ (s : St) (form : LogForm) (now : Nat),
    isCountable form.event = true →
    (dailyCount (log_data form now s) 1 (dateOf now) = dailyCount s 1 (dateOf now) + 1 ∧
     ∀ fid d : Nat, ¬(fid = 1 ∧ d = dateOf now) →
       dailyCount (log_data form now s) fid d = dailyCount s fid d)

/-- Claim C1 is false on the code: after a successful dispense on feeder
2 (one aggregate row `(feeder 2, day 0, count 1)` and no feeder 1 row), a
MANUAL_FEED via `log_data` creates feeder 1's aggregate with count 2 —
the date-keyed subselect seeded it from feeder 2's row — not 0 + 1. -/
theorem C1_counterexample : ¬ C1_claim := by
  intro h
  have h1 := (h stTrig2 (mkLogForm 40 ("MANUAL_FEED")) 3 (by decide)).1
  rw [show dailyCount (log_data (mkLogForm 40 ("MANUAL_FEED")) 3 stTrig2) 1 (dateOf 3) = 2
        from by decide,
      show dailyCount stTrig2 1 (dateOf 3) = 0 from by decide] at h1
  exact absurd h1 (by decide)

/-- Claim C1, amended.  `log_data` with an unclassified kind leaves
`daily_stats` untouched.  With a countable kind it targets feeder 1's row
for today but seeds the count from the first stored row of that date
regardless of feeder; therefore, whenever every stored row for today
belongs to feeder 1 — in particular on a fresh day — it increments the
(feeder 1, today) aggregate by exactly 1 (1 when absent) and leaves every
other (feeder, date) aggregate unchanged, so two MANUAL_FEED events on
the same date yield a count of exactly 2. -/
theorem C1_daily_upsert :
    (∀ (s : St) (form : LogForm) (now : Nat),
      isCountable form.event = false → (log_data form now s).daily = s.daily) ∧
    (∀ (s : St) (form : LogForm) (now : Nat),
      isCountable form.event = true →
      (∀ r ∈ s.daily, r.date = dateOf now → r.feeder_id = 1) →
      (dailyCount (log_data form now s) 1 (dateOf now) = dailyCount s 1 (dateOf now) + 1 ∧
       ∀ fid d : Nat, ¬(fid = 1 ∧ d = dateOf now) →
         dailyCount (log_data form now s) fid d = dailyCount s fid d)) ∧
    dailyCount (log_data (mkLogForm 50 ("MANUAL_FEED")) 0
      (log_data (mkLogForm 50 ("MANUAL_FEED")) 0 emptySt)) 1 (dateOf 0) = 2 := by
  refine ⟨?_, ?_, by decide⟩
  · intro s form now hc
    simp [log_data, hc]
  · intro s form now hc hall
    have hcongr : s.daily.find? (fun r => r.feeder_id == 1 && r.date == dateOf now) =
        s.daily.find? (fun r => r.date == dateOf now) := by
      apply find?_congr_on
      intro r hr
      by_cases hd : r.date = dateOf now
      · have h1 := hall r hr hd
        simp [hd, h1]
      · have hdf : (r.date == dateOf now) = false := beq_eq_false_iff_ne.mpr hd
        simp [hdf]
    constructor
    · show dailyCount (log_data form now s) 1 (dateOf now) = dailyCount s 1 (dateOf now) + 1
      unfold dailyCount
      simp only [log_data, hc, if_true, firstDailyByDate]
      rw [find?_append_of_none (find?_filter_not_self _ _)]
      simp only [List.find?, beq_self_eq_true, Bool.and_self, Option.map_some,
        Option.getD_some]
      rw [hcongr]
      rfl
    · intro fid d hne
      show dailyCount (log_data form now s) fid d = dailyCount s fid d
      unfold dailyCount
      simp only [log_data, hc, if_true, firstDailyByDate]
      rw [find?_append_single_false, find?_filter_of_disjoint]
      · intro x hx
        simp only [Bool.and_eq_true, beq_iff_eq] at hx
        by_cases h1 : fid = 1
        · have hd : x.date ≠ d := by
            rw [hx.2]
            exact fun hdq => hne ⟨h1, hdq.symm⟩
          have hdf : (x.date == d) = false := beq_eq_false_iff_ne.mpr hd
          simp [hdf]
        · have hf : x.feeder_id ≠ fid := by
            rw [hx.1]
            exact fun hq => h1 hq.symm
          have hff : (x.feeder_id == fid) = false := beq_eq_false_iff_ne.mpr hf
          simp [hff]
      · by_cases h1 : fid = 1
        · have hd : dateOf now ≠ d := fun hdq => hne ⟨h1, hdq.symm⟩
          have hdf : (dateOf now == d) = false := beq_eq_false_iff_ne.mpr hd
          simp [hdf]
        · have hf : (1 : Nat) ≠ fid := fun hq => h1 hq.symm
          have hff : ((1 : Nat) == fid) = false := beq_eq_false_iff_ne.mpr hf
          simp [hff]

/-- Witness for C1: on the fresh database, an unclassified (`UNKNOWN`)
event leaves `daily_stats` empty, and a first MANUAL_FEED takes the
(feeder 1, day 0) aggregate from 0 to 1. -/
theorem C1_daily_upsert_witness :
    (log_data (mkLogForm 0 ("UNKNOWN")) 0 emptySt).daily = emptySt.daily ∧
    dailyCount (log_data (mkLogForm 50 ("MANUAL_FEED")) 0 emptySt) 1 (dateOf 0) =
      dailyCount emptySt 1 (dateOf 0) + 1 :=
  ⟨C1_daily_upsert.1 emptySt (mkLogForm 0 ("UNKNOWN")) 0 (by decide),
   (C1_daily_upsert.2.1 emptySt (mkLogForm 50 ("MANUAL_FEED")) 0 (by decide)
     (fun r hr => by simp [emptySt] at hr)).1⟩

/-!
## Claim C2

In the code only a TRANSPORT failure (`requests.exceptions.RequestException`)
marks the feeder offline.  A non-200 device reply raises a plain
`Exception`, which the `except RequestException` clause does not catch;
the outer handler returns 500 and never calls `update_feeder_status`, so
the registry's online state is left untouched on that path.
-/

/-- Feeder 1 reported online at instant 5 (its `last_offline` is NULL). -/
def stOn1 : St := update_feeder_status 1 true 5 st1

/-- Claim C2 as stated: whenever the device call fails (any non-200
status or a transport error — here a device failing every call), no log
row is recorded, no aggregate changes, and the feeder is marked offline
with `last_offline` stamped. -/
def C2_claim : Prop :=
  ∀ (s : St) (fid : Nat) (amt : Int) (device : Device) (now : Nat),
    (∀ c, device c ≠ some 200) →
    (∃ f ∈ s.feeders, f.feeder_id = fid ∧ f.is_active = true) →
    ((trigger_feeding_by_feeder fid amt device now s).1.logs = s.logs ∧
     (trigger_feeding_by_feeder fid amt device now s).1.daily = s.daily ∧
     ∀ g ∈ (trigger_feeding_by_feeder fid amt device now s).1.feeders,
       g.feeder_id = fid → g.is_online = false ∧ g.last_offline ≠ none)

/-- Claim C2 is false on the code: with feeder 1 stored online and a
device answering HTTP 500, the trigger returns the generic 500 without
recording anything — but also without marking the feeder offline: its row
still says online with no `last_offline` stamp. -/
theorem C2_counterexample : ¬ C2_claim := by
  intro h
  have h3 := (h stOn1 1 50 deviceAll500 9
    (fun c hc => by simp [deviceAll500] at hc)
    (by decide)).2.2
  exact absurd h3 (by decide)

/-- A row matching the id receives the stamp `update_feeder_status`
applies for verdict `b`. -/
theorem update_feeder_status_mem_match {s : St} {g : Feeder} (hg : g ∈ s.feeders)
    (fid : Nat) (b : Bool) (now : Nat) (hid : g.feeder_id = fid) :
    (if b then onlineStamp now g else offlineStamp now g) ∈
      (update_feeder_status fid b now s).feeders := by
  have hbeq : (g.feeder_id == fid) = true := beq_iff_eq.mpr hid
  have h2 := List.mem_map_of_mem
    (fun f => if f.feeder_id == fid then
      (if b then onlineStamp now f else offlineStamp now f) else f) hg
  simp only [hbeq, if_true] at h2
  exact h2

/-- Rows with a different id are kept untouched by `update_feeder_status`. -/
theorem update_feeder_status_mem_other {s : St} {g : Feeder} (hg : g ∈ s.feeders)
    (fid : Nat) (b : Bool) (now : Nat) (hid : g.feeder_id ≠ fid) :
    g ∈ (update_feeder_status fid b now s).feeders := by
  have hbeq : (g.feeder_id == fid) = false := beq_eq_false_iff_ne.mpr hid
  have h2 := List.mem_map_of_mem
    (fun f => if f.feeder_id == fid then
      (if b then onlineStamp now f else offlineStamp now f) else f) hg
  simp only [hbeq, Bool.false_eq_true, if_false] at h2
  exact h2

/-- Calling `update_feeder_status` on an id no row has is a complete no-op. -/
theorem update_feeder_status_missing {s : St} (fid : Nat) (b : Bool) (now : Nat)
    (h : ∀ f ∈ s.feeders, f.feeder_id ≠ fid) : update_feeder_status fid b now s = s := by
  unfold update_feeder_status
  rw [map_eq_self_of_forall (fun f hf => by
    have hbeq : (f.feeder_id == fid) = false := beq_eq_false_iff_ne.mpr (h f hf)
    simp [hbeq])]

/-- Claim C2, amended: a transport error records no event, changes no
aggregate, and marks the feeder offline (`is_online = 0`, `last_offline`
and `updated_at` stamped, other rows untouched), returning 503; a non-200
device status also records no event and changes no aggregate, but leaves
the whole database — including the online state — unchanged, returning
the generic 500. -/
theorem C2_failure_paths :
    (∀ (s : St) (fid : Nat) (amt : Int) (device : Device) (now : Nat) (f : Feeder),
      s.feeders.find? (fun g => g.feeder_id == fid && g.is_active) = some f →
      device (DeviceCall.dispense f.esp32_ip f.esp32_port amt 5) = none →
        (trigger_feeding_by_feeder fid amt device now s).2.1 = TrigResult.connectError ∧
        (trigger_feeding_by_feeder fid amt device now s).1.logs = s.logs ∧
        (trigger_feeding_by_feeder fid amt device now s).1.daily = s.daily ∧
        (∀ g ∈ s.feeders, g.feeder_id = fid →
          offlineStamp now g ∈ (trigger_feeding_by_feeder fid amt device now s).1.feeders) ∧
        (∀ g ∈ s.feeders, g.feeder_id ≠ fid →
          g ∈ (trigger_feeding_by_feeder fid amt device now s).1.feeders)) ∧
    (∀ (s : St) (fid : Nat) (amt : Int) (device : Device) (now : Nat) (f : Feeder) (c : Nat),
      s.feeders.find? (fun g => g.feeder_id == fid && g.is_active) = some f →
      device (DeviceCall.dispense f.esp32_ip f.esp32_port amt 5) = some c →
      c ≠ 200 →
        (trigger_feeding_by_feeder fid amt device now s).2.1 = TrigResult.serverError ∧
        (trigger_feeding_by_feeder fid amt device now s).1 = s) := by
  constructor
  · intro s fid amt device now f hfind hdev
    have key : trigger_feeding_by_feeder fid amt device now s =
        (update_feeder_status fid false now s, TrigResult.connectError,
         [DeviceCall.dispense f.esp32_ip f.esp32_port amt 5]) := by
      simp only [trigger_feeding_by_feeder, hfind, hdev]
    refine ⟨by rw [key], by rw [key]; rfl, by rw [key]; rfl, ?_, ?_⟩
    · intro g hg hgid
      rw [key]
      have := update_feeder_status_mem_match hg fid false now hgid
      simpa using this
    · intro g hg hgid
      rw [key]
      exact update_feeder_status_mem_other hg fid false now hgid
  · intro s fid amt device now f c hfind hdev hc
    have hcf : (c == 200) = false := beq_eq_false_iff_ne.mpr hc
    have key : trigger_feeding_by_feeder fid amt device now s =
        (s, TrigResult.serverError,
         [DeviceCall.dispense f.esp32_ip f.esp32_port amt 5]) := by
      simp only [trigger_feeding_by_feeder, hfind, hdev, hcf, Bool.false_eq_true, if_false]
    exact ⟨by rw [key], by rw [key]⟩

/-- Witness for C2: on the one-feeder database, a dead device yields the
503 transport outcome and a device answering HTTP 500 yields the generic
500 outcome with the state unchanged. -/
theorem C2_failure_paths_witness :
    (trigger_feeding_by_feeder 1 50 deviceNoReply 9 st1).2.1 = TrigResult.connectError ∧
    (trigger_feeding_by_feeder 1 50 deviceAll500 9 st1).2.1 = TrigResult.serverError ∧
    (trigger_feeding_by_feeder 1 50 deviceAll500 9 st1).1 = st1 :=
  ⟨(C2_failure_paths.1 st1 1 50 deviceNoReply 9
      { feeder_id := 1, feeder_name := ("Module A"), esp32_ip := ("10.0.0.1"),
        esp32_port := 80, esp_cam_ip := none, esp_cam_port := some 80,
        location := ("Main Area"), max_capacity_g := 5000, current_weight_g := 0,
        is_active := true, is_online := false, last_online := some 0,
        last_offline := none, wifi_strength := 0, created_at := 0,
        updated_at := some 0 } (by decide) rfl).1,
   (C2_failure_paths.2 st1 1 50 deviceAll500 9
      { feeder_id := 1, feeder_name := ("Module A"), esp32_ip := ("10.0.0.1"),
        esp32_port := 80, esp_cam_ip := none, esp_cam_port := some 80,
        location := ("Main Area"), max_capacity_g := 5000, current_weight_g := 0,
        is_active := true, is_online := false, last_online := some 0,
        last_offline := none, wifi_strength := 0, created_at := 0,
        updated_at := some 0 } 500 (by decide) rfl (by decide)).1,
   (C2_failure_paths.2 st1 1 50 deviceAll500 9
      { feeder_id := 1, feeder_name := ("Module A"), esp32_ip := ("10.0.0.1"),
        esp32_port := 80, esp_cam_ip := none, esp_cam_port := some 80,
        location := ("Main Area"), max_capacity_g := 5000, current_weight_g := 0,
        is_active := true, is_online := false, last_online := some 0,
        last_offline := none, wifi_strength := 0, created_at := 0,
        updated_at := some 0 } 500 (by decide) rfl (by decide)).2⟩

/-!
## Claim C3

`add_feeder` validates the HOST with a 400, but the PORT is parsed with a
bare `int(...)` inside the handler's `try`: a non-numeric port (or an
address with more than one colon) raises `ValueError`, which only the
outer `except Exception` catches, producing the generic 500 instead of
the 400 `ValidationError` surface.
-/

/-- Modelled from the spec: "a well-formed IPv4-literal[:port] (port
optional, defaults to 80)" with "octets in [0,255] and exactly four
octets" — the spec-side notion of a well-formed address, written only to
state claim C3 and compared against the source's `parseAddr`/`validHost`. -/
def specWellFormedHost (h : String) : Bool :=
  ((pySplit '.' h).length == 4) &&
    (pySplit '.' h).all (fun p => isDigits p && decide (digitsToNat p.data ≤ 255))

/-- Modelled from the spec: an address is the host alone or `host:port`
with a numeric port. -/
def specWellFormedAddr (a : String) : Bool :=
  match pySplit ':' a with
  | [h] => specWellFormedHost h
  | [h, p] => specWellFormedHost h && isDigits p
  | _ => false

/-- Claim C3 as stated (its universally quantified clause): for every
input with the required fields present, a malformed address — not a
well-formed IPv4-literal optionally followed by a port — fails with
`ValidationError` (the HTTP 400 surface). -/
def C3_claim : Prop :=
  ∀ (s : St) (form : AddForm) (now : Nat),
    form.name ≠ ("") → form.ip_address ≠ ("") →
    specWellFormedAddr form.ip_address = false →
    ∃ m, (add_feeder form now s).2 = AddResult.badRequest m

/-- Claim C3 is false on the code: `"1.2.3.4:abc"` is not a well-formed
address, yet `add_feeder` answers the generic 500 (`int('abc')` raises
`ValueError`), not a 400 `ValidationError`. -/
theorem C3_counterexample : ¬ C3_claim := by
  intro h
  rcases h emptySt (addForm ("N") ("1.2.3.4:abc")) 0 (by decide) (by decide) (by decide)
    with ⟨m, hm⟩
  rw [show (add_feeder (addForm ("N") ("1.2.3.4:abc")) 0 emptySt).2 = AddResult.serverError
    from by decide] at hm
  exact AddResult.noConfusion hm

/-- The missing-field guard of `add_feeder` passes when both required
fields are non-empty. -/
theorem add_feeder_cond_false {form : AddForm} (hname : form.name ≠ (""))
    (hip : form.ip_address ≠ ("")) :
    (form.name == ("") || form.ip_address == ("")) = false := by
  rw [beq_eq_false_iff_ne.mpr hname, beq_eq_false_iff_ne.mpr hip]
  rfl

/-- Claim C3, amended: `add_feeder` rejects `"999.1.1.1"` and `"1.2.3"`
(and any address whose parsed host is malformed) with the 400
`ValidationError` surface, rejects an address whose host an active module
already claims with a 400, and on success creates the module with
`online = false` and returns its id — but an address whose PORT part is
not numeric fails with the generic 500, not with `ValidationError`. -/
theorem C3_register :
    (∀ (s : St) (now : Nat) (form : AddForm), form.name ≠ ("") →
      form.ip_address = ("999.1.1.1") →
      (add_feeder form now s).2 = AddResult.badRequest ("Invalid IP address format")) ∧
    (∀ (s : St) (now : Nat) (form : AddForm), form.name ≠ ("") →
      form.ip_address = ("1.2.3") →
      (add_feeder form now s).2 = AddResult.badRequest ("Invalid IP address format")) ∧
    (∀ (s : St) (now : Nat) (form : AddForm) (ip : String) (port : Int),
      form.name ≠ ("") → form.ip_address ≠ ("") →
      parseAddr form.ip_address = some (ip, port) → validHost ip = true →
      (∃ f ∈ s.feeders, f.is_active = true ∧ f.esp32_ip = ip) →
      (add_feeder form now s).2 =
        AddResult.badRequest ("A feeder with this IP already exists")) ∧
    (∀ (s : St) (now : Nat) (form : AddForm) (ip : String) (port : Int),
      form.name ≠ ("") → form.ip_address ≠ ("") →
      parseAddr form.ip_address = some (ip, port) → validHost ip = true →
      (∀ f ∈ s.feeders, f.is_active = true → f.esp32_ip ≠ ip) →
      ((add_feeder form now s).2 = AddResult.ok s.nextFeederId ∧
       (add_feeder form now s).1.feeders =
         s.feeders ++ [newFeederRow form ip port s.nextFeederId now] ∧
       (newFeederRow form ip port s.nextFeederId now).is_online = false)) ∧
    (∀ (s : St) (now : Nat) (form : AddForm) (h p : String),
      form.name ≠ ("") → form.ip_address ≠ ("") →
      pyContains ':' form.ip_address = true →
      pySplit ':' form.ip_address = [h, p] → pyInt? p = none →
      (add_feeder form now s).2 = AddResult.serverError) := by
  refine ⟨?_, ?_, ?_, ?_, ?_⟩
  · intro s now form hname hip
    have hcond : (form.name == ("") || (("999.1.1.1") : String) == ("")) = false := by
      rw [beq_eq_false_iff_ne.mpr hname]
      decide
    have hp : parseAddr ("999.1.1.1") = some (("999.1.1.1"), 80) := by decide
    have hv : validHost ("999.1.1.1") = false := by decide
    simp only [add_feeder, hip, hcond, Bool.false_eq_true, if_false, hp, hv,
      Bool.not_false, if_true]
  · intro s now form hname hip
    have hcond : (form.name == ("") || (("1.2.3") : String) == ("")) = false := by
      rw [beq_eq_false_iff_ne.mpr hname]
      decide
    have hp : parseAddr ("1.2.3") = some (("1.2.3"), 80) := by decide
    have hv : validHost ("1.2.3") = false := by decide
    simp only [add_feeder, hip, hcond, Bool.false_eq_true, if_false, hp, hv,
      Bool.not_false, if_true]
  · intro s now form ip port hname hip hparse hhost hdup
    have hcond := add_feeder_cond_false hname hip
    have hany : (s.feeders.any (fun f => f.esp32_ip == ip && f.is_active)) = true := by
      rcases hdup with ⟨f, hf, hact, hfeq⟩
      exact List.any_eq_true.mpr ⟨f, hf, by simp [hfeq, hact]⟩
    simp only [add_feeder, hcond, Bool.false_eq_true, if_false, hparse, hhost,
      Bool.not_true, hany, if_true]
  · intro s now form ip port hname hip hparse hhost hnodup
    have hcond := add_feeder_cond_false hname hip
    have hany : (s.feeders.any (fun f => f.esp32_ip == ip && f.is_active)) = false := by
      rw [← Bool.not_eq_true, List.any_eq_true]
      rintro ⟨f, hf, hp⟩
      simp only [Bool.and_eq_true, beq_iff_eq] at hp
      exact hnodup f hf hp.2 hp.1
    refine ⟨?_, ?_, rfl⟩ <;>
      simp only [add_feeder, hcond, Bool.false_eq_true, if_false, hparse, hhost,
        Bool.not_true, hany, if_true]
  · intro s now form h p hname hip hcont hsplit hpint
    have hcond := add_feeder_cond_false hname hip
    have hparse : parseAddr form.ip_address = none := by
      unfold parseAddr
      rw [hcont, hsplit]
      simp [hpint]
    simp only [add_feeder, hcond, Bool.false_eq_true, if_false, hparse]

/-- Witness for C3: the spec's three rejection examples, one success, and
the malformed-port 500. -/
theorem C3_register_witness :
    (add_feeder (addForm ("N") ("999.1.1.1")) 0 emptySt).2 =
      AddResult.badRequest ("Invalid IP address format") ∧
    (add_feeder (addForm ("N") ("1.2.3")) 0 emptySt).2 =
      AddResult.badRequest ("Invalid IP address format") ∧
    (add_feeder (addForm ("N") ("10.0.0.1:9090")) 0 st1).2 =
      AddResult.badRequest ("A feeder with this IP already exists") ∧
    (add_feeder (addForm ("Module 1") ("192.168.1.10:80")) 0 emptySt).2 =
      AddResult.ok 1 ∧
    (add_feeder (addForm ("N") ("1.2.3.4:abc")) 0 emptySt).2 = AddResult.serverError :=
  ⟨C3_register.1 emptySt 0 (addForm ("N") ("999.1.1.1")) (by decide) rfl,
   C3_register.2.1 emptySt 0 (addForm ("N") ("1.2.3")) (by decide) rfl,
   C3_register.2.2.1 st1 0 (addForm ("N") ("10.0.0.1:9090")) ("10.0.0.1") 9090
     (by decide) (by decide) (by decide) (by decide) (by decide),
   (C3_register.2.2.2.1 emptySt 0 (addForm ("Module 1") ("192.168.1.10:80"))
     ("192.168.1.10") 80 (by decide) (by decide) (by decide) (by decide)
     (by decide)).1,
   C3_register.2.2.2.2 emptySt 0 (addForm ("N") ("1.2.3.4:abc")) ("1.2.3.4") ("abc")
     (by decide) (by decide) (by decide) (by decide) (by decide)⟩

/-!
## Claim C4

`trigger_feeding_by_feeder` reads the STORED `is_online` flag (into an
unused variable) and then POSTs `/trigger_dispensing` directly; no
reachability probe is issued on the trigger path at all.  The probe
(`check_feeder_online`, 2-second timeout) is used only by `get_feeders`.
-/

/-- Discriminates the status-probe calls from the dispense calls. -/
def isProbeCall : DeviceCall → Bool
  | DeviceCall.probe _ _ _ => true
  | DeviceCall.dispense _ _ _ _ => false

/-- On a feeder the lookup finds, the trigger's device-call trace is
exactly the one dispense command (5-second timeout), whatever the device
answers. -/
theorem trigger_trace {s : St} {fid : Nat} {amt : Int} {device : Device} {now : Nat}
    {f : Feeder}
    (hfind : s.feeders.find? (fun g => g.feeder_id == fid && g.is_active) = some f) :
    (trigger_feeding_by_feeder fid amt device now s).2.2 =
      [DeviceCall.dispense f.esp32_ip f.esp32_port amt 5] := by
  simp only [trigger_feeding_by_feeder, hfind]
  cases hdev : device (DeviceCall.dispense f.esp32_ip f.esp32_port amt 5) with
  | none => rfl
  | some code => cases hcode : (code == 200) <;> simp [hcode]

/-- When the lookup fails, the trigger contacts no device at all. -/
theorem trigger_trace_notFound {s : St} {fid : Nat} {amt : Int} {device : Device}
    {now : Nat}
    (hfind : s.feeders.find? (fun g => g.feeder_id == fid && g.is_active) = none) :
    (trigger_feeding_by_feeder fid amt device now s).2.2 = [] := by
  simp only [trigger_feeding_by_feeder, hfind]

/-- Claim C4 as stated (in the weak form its refutation also refutes):
whenever a feeding trigger sends a dispense command, its device-call
trace also contains a reachability probe (the probe would have to come
first and succeed; here we merely ask that one exists at all). -/
def C4_claim : Prop :=
  ∀ (s : St) (fid : Nat) (amt : Int) (device : Device) (now : Nat),
    (∃ c ∈ (trigger_feeding_by_feeder fid amt device now s).2.2, isProbeCall c = false) →
    ∃ c ∈ (trigger_feeding_by_feeder fid amt device now s).2.2, isProbeCall c = true

/-- Claim C4 is false on the code: triggering feeder 1 sends the dispense
command with no probe anywhere in the trace. -/
theorem C4_counterexample : ¬ C4_claim := by
  intro h
  exact absurd (h st1 1 50 deviceAll200 9 (by decide)) (by decide)

/-- Claim C4, amended: a feeding trigger never probes — every call in its
trace is the dispense command itself (5-second timeout), and on a feeder
the lookup finds the trace is exactly that single dispense command, sent
unconditionally. -/
theorem C4_no_probe :
    (∀ (s : St) (fid : Nat) (amt : Int) (device : Device) (now : Nat),
      ∀ c ∈ (trigger_feeding_by_feeder fid amt device now s).2.2,
        ∃ ip port, c = DeviceCall.dispense ip port amt 5) ∧
    (∀ (s : St) (fid : Nat) (amt : Int) (device : Device) (now : Nat) (f : Feeder),
      s.feeders.find? (fun g => g.feeder_id == fid && g.is_active) = some f →
      (trigger_feeding_by_feeder fid amt device now s).2.2 =
        [DeviceCall.dispense f.esp32_ip f.esp32_port amt 5]) := by
  constructor
  · intro s fid amt device now c hc
    cases hfind : s.feeders.find? (fun g => g.feeder_id == fid && g.is_active) with
    | none =>
      rw [trigger_trace_notFound hfind] at hc
      exact absurd hc (by simp)
    | some f =>
      rw [trigger_trace hfind] at hc
      have := List.mem_singleton.mp hc
      exact ⟨f.esp32_ip, f.esp32_port, this⟩
  · intro s fid amt device now f hfind
    exact trigger_trace hfind

/-- Witness for C4: on the one-feeder database the trigger's trace is the
single dispense call to 10.0.0.1:80. -/
theorem C4_no_probe_witness :
    (trigger_feeding_by_feeder 1 50 deviceAll200 9 st1).2.2 =
      [DeviceCall.dispense ("10.0.0.1") 80 50 5] ∧
    (∃ ip port, DeviceCall.dispense ("10.0.0.1") 80 50 5 =
      DeviceCall.dispense ip port 50 5) :=
  ⟨C4_no_probe.2 st1 1 50 deviceAll200 9
     { feeder_id := 1, feeder_name := ("Module A"), esp32_ip := ("10.0.0.1"),
       esp32_port := 80, esp_cam_ip := none, esp_cam_port := some 80,
       location := ("Main Area"), max_capacity_g := 5000, current_weight_g := 0,
       is_active := true, is_online := false, last_online := some 0,
       last_offline := none, wifi_strength := 0, created_at := 0,
       updated_at := some 0 } (by decide),
   C4_no_probe.1 st1 1 50 deviceAll200 9 (DeviceCall.dispense ("10.0.0.1") 80 50 5)
     (by decide)⟩

/-!
## Claim C5

`get_feeders` re-probes every active module, but it persists the verdict
only when it DIFFERS from the stored flag (`if is_online != feeder[10]`).
A freshly registered feeder is stored with `is_online = 0` and
`last_offline` NULL, so a failed probe is no change: the module is
reported `online = false`, but nothing is written back and no
`last_offline` timestamp ever appears.
-/

/-- Every entry `get_feeders` returns reports the fresh 2-second probe
verdict on the address it carries. -/
theorem get_feeders_aux_online (device : Device) (now : Nat) :
    ∀ (l : List Feeder) (s : St) (e : FeederEntry),
      e ∈ (get_feeders_aux device now l s).2 →
      e.is_online = check_feeder_online device e.esp32_ip e.esp32_port 2
  | [], _, e, he => absurd he (by simp [get_feeders_aux])
  | f :: rest, s, e, he => by
    simp only [get_feeders_aux] at he
    rcases List.mem_cons.mp he with h | h
    · subst h
      rfl
    · exact get_feeders_aux_online device now rest _ e h

/-- When every probed verdict agrees with the stored flag, the loop of
`get_feeders` writes nothing back. -/
theorem get_feeders_aux_nochange (device : Device) (now : Nat) :
    ∀ (l : List Feeder) (s : St),
      (∀ f ∈ l, check_feeder_online device f.esp32_ip f.esp32_port 2 = f.is_online) →
      (get_feeders_aux device now l s).1 = s
  | [], _, _ => rfl
  | f :: rest, s, h => by
    have hf := h f (by simp)
    simp only [get_feeders_aux, hf, beq_self_eq_true, if_true]
    exact get_feeders_aux_nochange device now rest s (fun g hg => h g (by simp [hg]))

/-- Claim C5 as stated (the scenario clause): register
("Module 1", "192.168.1.10:80"), let every probe fail, call `listActive`:
the module is reported `online = false` AND its stored row carries a
fresh `last_offline` stamp. -/
def C5_claim : Prop :=
  ∀ (t t' : Nat) (device : Device),
    (∀ ip port tmo, device (DeviceCall.probe ip port tmo) = none) →
    (∀ e ∈ (get_feeders device t'
        ((add_feeder (addForm ("Module 1") ("192.168.1.10:80")) t emptySt).1)).2,
      e.is_online = false) ∧
    (∃ g ∈ (get_feeders device t'
        ((add_feeder (addForm ("Module 1") ("192.168.1.10:80")) t emptySt).1)).1.feeders,
      g.last_offline ≠ none)

/-- Claim C5 is false on the code: in the spec's scenario the probe
verdict (offline) equals the stored flag, so `get_feeders` writes nothing
— the module is indeed reported `online = false`, but `last_offline`
remains NULL instead of being freshly stamped. -/
theorem C5_counterexample : ¬ C5_claim := by
  intro h
  have h2 := (h 0 7 deviceNoReply (fun _ _ _ => rfl)).2
  exact absurd h2 (by decide)

/-- Claim C5, amended: `listActive` re-probes every active module
synchronously (each returned entry carries its fresh 2-second probe
verdict) and persists the verdict before responding — but only when it
differs from the stored flag; when every verdict agrees with the stored
flag nothing is written.  In the spec's scenario the freshly registered
module is already stored offline, so `listActive` reports it with
`online = false` while its stored row keeps `last_offline` NULL; a fresh
`last_offline` stamp appears only when a stored-online feeder probes
offline. -/
theorem C5_list_active :
    (∀ (s : St) (device : Device) (now : Nat),
      ∀ e ∈ (get_feeders device now s).2,
        e.is_online = check_feeder_online device e.esp32_ip e.esp32_port 2) ∧
    (∀ (s : St) (device : Device) (now : Nat),
      (∀ f ∈ s.feeders, f.is_active = true →
        check_feeder_online device f.esp32_ip f.esp32_port 2 = f.is_online) →
      (get_feeders device now s).1 = s) ∧
    (∀ (s : St) (device : Device) (now : Nat) (f : Feeder),
      s.feeders = [f] → f.is_active = true →
      check_feeder_online device f.esp32_ip f.esp32_port 2 = false →
      f.is_online = true →
      (get_feeders device now s).1.feeders = [offlineStamp now f]) ∧
    ((∀ e ∈ (get_feeders deviceNoReply 7 stReg).2, e.is_online = false) ∧
     (get_feeders deviceNoReply 7 stReg).1 = stReg ∧
     (∀ g ∈ (get_feeders deviceNoReply 7 stReg).1.feeders, g.last_offline = none)) := by
  refine ⟨?_, ?_, ?_, by decide, by decide, by decide⟩
  · intro s device now e he
    exact get_feeders_aux_online device now _ s e he
  · intro s device now h
    apply get_feeders_aux_nochange
    intro f hf
    have hm := List.mem_filter.mp hf
    exact h f hm.1 hm.2
  · intro s device now f hfs hact hprobe honline
    have hfilter : s.feeders.filter (fun g => g.is_active) = [f] := by
      rw [hfs]
      simp [List.filter, hact]
    unfold get_feeders
    rw [hfilter]
    simp only [get_feeders_aux, hprobe, honline]
    rw [show ((false : Bool) == true) = false from rfl]
    simp only [Bool.false_eq_true, if_false]
    unfold update_feeder_status
    rw [hfs]
    simp only [List.map, beq_self_eq_true, if_true]
    rfl

/-- The single row of `stReg`, as created by `add_feeder`. -/
def fReg : Feeder :=
  { feeder_id := 1, feeder_name := ("Module 1"), esp32_ip := ("192.168.1.10"),
    esp32_port := 80, esp_cam_ip := none, esp_cam_port := some 80,
    location := ("Main Area"), max_capacity_g := 5000, current_weight_g := 0,
    is_active := true, is_online := false, last_online := some 0,
    last_offline := none, wifi_strength := 0, created_at := 0, updated_at := some 0 }

/-- Witness for C5: the spec's scenario state — the state is returned
unchanged and every returned entry reports its fresh probe verdict. -/
theorem C5_list_active_witness :
    (get_feeders deviceNoReply 7 stReg).1 = stReg ∧
    ∀ e ∈ (get_feeders deviceNoReply 7 stReg).2,
      e.is_online = check_feeder_online deviceNoReply e.esp32_ip e.esp32_port 2 :=
  ⟨C5_list_active.2.1 stReg deviceNoReply 7 (fun f hf _ => by
      have hl : stReg.feeders = [fReg] := by decide
      rw [hl] at hf
      rw [List.mem_singleton.mp hf]
      rfl),
   C5_list_active.1 stReg deviceNoReply 7⟩

/-!
## Claim C6

`update_feeder_status` stamps with `strftime('%Y-%m-%d %H:%M:%S')` —
second granularity.  Two calls that land in the same wall-clock second
write the SAME timestamp, so after `setOnlineState(id, true)` then
`setOnlineState(id, false)` the stored values satisfy
last-offline ≥ last-online, with equality whenever the two calls share a
second; "strictly greater" is not guaranteed.
-/

/-- The row of `st1` after being stamped online and offline at instant 9. -/
def g96 : Feeder :=
  { feeder_id := 1, feeder_name := ("Module A"), esp32_ip := ("10.0.0.1"),
    esp32_port := 80, esp_cam_ip := none, esp_cam_port := some 80,
    location := ("Main Area"), max_capacity_g := 5000, current_weight_g := 0,
    is_active := true, is_online := false, last_online := some 9,
    last_offline := some 9, wifi_strength := 0, created_at := 0,
    updated_at := some 9 }

/-- The row of `st1` (feeder 1 as `add_feeder` created it). -/
def fA : Feeder :=
  { feeder_id := 1, feeder_name := ("Module A"), esp32_ip := ("10.0.0.1"),
    esp32_port := 80, esp_cam_ip := none, esp_cam_port := some 80,
    location := ("Main Area"), max_capacity_g := 5000, current_weight_g := 0,
    is_active := true, is_online := false, last_online := some 0,
    last_offline := none, wifi_strength := 0, created_at := 0,
    updated_at := some 0 }

/-- Claim C6 as stated (its ordering clause): for any feeder id, calling
`setOnlineState(id, true)` at `t1` and then `setOnlineState(id, false)`
at `t2 ≥ t1` leaves the feeder's stored last-offline strictly greater
than its stored last-online. -/
def C6_claim : Prop :=
  ∀ (s : St) (fid : Nat) (t1 t2 : Nat), t1 ≤ t2 →
    (∃ f ∈ s.feeders, f.feeder_id = fid) →
    ∀ g ∈ (update_feeder_status fid false t2 (update_feeder_status fid true t1 s)).feeders,
      g.feeder_id = fid →
      ∃ u v, g.last_online = some u ∧ g.last_offline = some v ∧ u < v

/-- Claim C6 is false on the code: both calls inside the same wall-clock
second (instant 9) stamp the same second-granularity timestamp, leaving
last-offline = last-online, not strictly greater. -/
theorem C6_counterexample : ¬ C6_claim := by
  intro h
  rcases h st1 1 9 9 (le_refl 9) (by decide) g96 (by decide) rfl
    with ⟨u, v, hu, hv, huv⟩
  rw [show g96.last_online = some 9 from rfl] at hu
  rw [show g96.last_offline = some 9 from rfl] at hv
  injection hu with hu'
  injection hv with hv'
  rw [← hu', ← hv'] at huv
  exact absurd huv (lt_irrefl 9)

/-- Claim C6, amended: each `setOnlineState` call stamps exactly one of
last-online (when online) or last-offline (when offline) — leaving the
other untouched — plus the updated-at marker; rows with another id are
untouched and a missing id is a complete no-op; and true-then-false calls
at `t1 ≤ t2` leave last-online = t1 and last-offline = t2, so
last-offline ≥ last-online, strictly greater exactly when the calls fall
in different seconds (t1 < t2), and equal when they share one. -/
theorem C6_set_online_state :
    (∀ (s : St) (fid : Nat) (now : Nat) (g : Feeder), g ∈ s.feeders →
      g.feeder_id = fid →
      (onlineStamp now g ∈ (update_feeder_status fid true now s).feeders ∧
       (onlineStamp now g).last_online = some now ∧
       (onlineStamp now g).last_offline = g.last_offline ∧
       (onlineStamp now g).updated_at = some now)) ∧
    (∀ (s : St) (fid : Nat) (now : Nat) (g : Feeder), g ∈ s.feeders →
      g.feeder_id = fid →
      (offlineStamp now g ∈ (update_feeder_status fid false now s).feeders ∧
       (offlineStamp now g).last_offline = some now ∧
       (offlineStamp now g).last_online = g.last_online ∧
       (offlineStamp now g).updated_at = some now)) ∧
    (∀ (s : St) (fid : Nat) (b : Bool) (now : Nat) (g : Feeder), g ∈ s.feeders →
      g.feeder_id ≠ fid → g ∈ (update_feeder_status fid b now s).feeders) ∧
    (∀ (s : St) (fid : Nat) (b : Bool) (now : Nat),
      (∀ f ∈ s.feeders, f.feeder_id ≠ fid) → update_feeder_status fid b now s = s) ∧
    (∀ (s : St) (fid : Nat) (t1 t2 : Nat) (g : Feeder), g ∈ s.feeders →
      g.feeder_id = fid → t1 ≤ t2 →
      ((offlineStamp t2 (onlineStamp t1 g)).last_online = some t1 ∧
       (offlineStamp t2 (onlineStamp t1 g)).last_offline = some t2 ∧
       offlineStamp t2 (onlineStamp t1 g) ∈
         (update_feeder_status fid false t2 (update_feeder_status fid true t1 s)).feeders)) := by
  refine ⟨?_, ?_, ?_, ?_, ?_⟩
  · intro s fid now g hg hid
    refine ⟨?_, rfl, rfl, rfl⟩
    have := update_feeder_status_mem_match hg fid true now hid
    simpa using this
  · intro s fid now g hg hid
    refine ⟨?_, rfl, rfl, rfl⟩
    have := update_feeder_status_mem_match hg fid false now hid
    simpa using this
  · intro s fid b now g hg hid
    exact update_feeder_status_mem_other hg fid b now hid
  · intro s fid b now h
    exact update_feeder_status_missing fid b now h
  · intro s fid t1 t2 g hg hid _
    refine ⟨rfl, rfl, ?_⟩
    have h1 : onlineStamp t1 g ∈ (update_feeder_status fid true t1 s).feeders := by
      have := update_feeder_status_mem_match hg fid true t1 hid
      simpa using this
    have hid2 : (onlineStamp t1 g).feeder_id = fid := hid
    have := update_feeder_status_mem_match h1 fid false t2 hid2
    simpa using this

/-- Witness for C6: on the one-feeder database, online at 9 then offline
at 9 leaves the row with last-online = last-offline = 9, and a call on
the missing id 2 changes nothing. -/
theorem C6_set_online_state_witness :
    (offlineStamp 9 (onlineStamp 9 fA)).last_online = some 9 ∧
    (offlineStamp 9 (onlineStamp 9 fA)).last_offline = some 9 ∧
    offlineStamp 9 (onlineStamp 9 fA) ∈
      (update_feeder_status 1 false 9 (update_feeder_status 1 true 9 st1)).feeders ∧
    update_feeder_status 2 true 9 st1 = st1 :=
  ⟨(C6_set_online_state.2.2.2.2 st1 1 9 9 fA (by decide) rfl (le_refl 9)).1,
   (C6_set_online_state.2.2.2.2 st1 1 9 9 fA (by decide) rfl (le_refl 9)).2.1,
   (C6_set_online_state.2.2.2.2 st1 1 9 9 fA (by decide) rfl (le_refl 9)).2.2,
   C6_set_online_state.2.2.2.1 st1 2 true 9 (by decide)⟩

/-!
## Claim C7

`upload_photo` with a (non-empty) correlation token runs
`UPDATE logs SET image_path = ? WHERE feeding_id = ?`; without one it
patches `WHERE id = (SELECT MAX(id) FROM logs)`.  When nothing matches
(including an empty table) the UPDATE touches no row and the handler
still answers 200.  The claim is confirmed.
-/

/-- The last log row of `st3events` (id 3, the most recently inserted). -/
def row3 : LogRow :=
  { id := 3, feeder_id := 1, feeding_id := some (""), timestamp := 0,
    source := ("ESP32"), weight := none, amount := 100,
    event_type := ("MANUAL_FEED"), image_path := none,
    feed_type := some ("Manual") }

/-- Claim C7, confirmed: with a supplied token, `attachImage` patches the
image reference of exactly the rows whose correlation token equals it —
every matching row is patched, every other row is kept verbatim — and it
is a silent no-op when nothing matches; with no token it patches only the
row with the maximal id (none on an empty table), keeping all others. -/
theorem C7_attach_image :
    (∀ (s : St) (token ctype : String) (now : Nat), token ≠ ("") →
      ((∀ r ∈ s.logs, r.feeding_id = some token →
         withImage (upload_path token ctype now) r ∈ (upload_photo token ctype now s).logs) ∧
       (∀ r ∈ s.logs, r.feeding_id ≠ some token →
         r ∈ (upload_photo token ctype now s).logs) ∧
       ((∀ r ∈ s.logs, r.feeding_id ≠ some token) → upload_photo token ctype now s = s))) ∧
    (∀ (s : St) (ctype : String) (now : Nat),
      ((s.logs = [] → upload_photo ("") ctype now s = s) ∧
       (∀ r ∈ s.logs, maxLogId s.logs = some r.id →
         withImage (upload_path ("") ctype now) r ∈ (upload_photo ("") ctype now s).logs) ∧
       (∀ r ∈ s.logs, ∀ m, maxLogId s.logs = some m → r.id ≠ m →
         r ∈ (upload_photo ("") ctype now s).logs))) := by
  constructor
  · intro s token ctype now htok
    have hbeq : (token == ("")) = false := beq_eq_false_iff_ne.mpr htok
    have hkey : upload_photo token ctype now s =
        { s with logs := s.logs.map (fun r =>
            if r.feeding_id == some token
            then withImage (upload_path token ctype now) r else r) } := by
      simp only [upload_photo, hbeq, Bool.false_eq_true, if_false]
    refine ⟨?_, ?_, ?_⟩
    · intro r hr hrid
      rw [hkey]
      have hb : (r.feeding_id == some token) = true := beq_iff_eq.mpr hrid
      have h2 := List.mem_map_of_mem (fun r =>
        if r.feeding_id == some token
        then withImage (upload_path token ctype now) r else r) hr
      simp only [hb, if_true] at h2
      exact h2
    · intro r hr hrid
      rw [hkey]
      have hb : (r.feeding_id == some token) = false := beq_eq_false_iff_ne.mpr hrid
      have h2 := List.mem_map_of_mem (fun r =>
        if r.feeding_id == some token
        then withImage (upload_path token ctype now) r else r) hr
      simp only [hb, Bool.false_eq_true, if_false] at h2
      exact h2
    · intro hnone
      rw [hkey]
      rw [map_eq_self_of_forall (fun r hr => by
        have hb : (r.feeding_id == some token) = false :=
          beq_eq_false_iff_ne.mpr (hnone r hr)
        simp [hb])]
  · intro s ctype now
    refine ⟨?_, ?_, ?_⟩
    · intro hlogs
      simp [upload_photo, hlogs, maxLogId]
    · intro r hr hmax
      have hkey : upload_photo ("") ctype now s =
          { s with logs := s.logs.map (fun q =>
              if q.id == r.id then withImage (upload_path ("") ctype now) q else q) } := by
        simp only [upload_photo, hmax]
        rfl
      rw [hkey]
      have h2 := List.mem_map_of_mem (fun q =>
        if q.id == r.id then withImage (upload_path ("") ctype now) q else q) hr
      simp only [beq_self_eq_true, if_true] at h2
      exact h2
    · intro r hr m hmax hne
      have hkey : upload_photo ("") ctype now s =
          { s with logs := s.logs.map (fun q =>
              if q.id == m then withImage (upload_path ("") ctype now) q else q) } := by
        simp only [upload_photo, hmax]
        rfl
      rw [hkey]
      have hb : (r.id == m) = false := beq_eq_false_iff_ne.mpr hne
      have h2 := List.mem_map_of_mem (fun q =>
        if q.id == m then withImage (upload_path ("") ctype now) q else q) hr
      simp only [hb, Bool.false_eq_true, if_false] at h2
      exact h2

/-- Witness for C7: on the three-event state (all rows carry the empty
token), `attachImage("abc123", ...)` is a no-op, and with no token the
most recent row (id 3) gets the image path. -/
theorem C7_attach_image_witness :
    upload_photo ("abc123") ("1") 5 st3events = st3events ∧
    withImage (upload_path ("") ("1") 5) row3 ∈ (upload_photo ("") ("1") 5 st3events).logs :=
  ⟨(C7_attach_image.1 st3events ("abc123") ("1") 5 (by decide)).2.2 (by decide),
   (C7_attach_image.2 st3events ("1") 5).2.1 row3 (by decide) (by decide)⟩

/-!
## Claim C8

`get_daily_stats` reads the stored `total_feedings` of the current date
from `daily_stats` and recomputes the dispensed total live with
`SUM(amount)` over the countable log rows of that date.  The current date
is the handler's clock (`date.today()` / `DATE('now')`); `dailyTotals(d)`
is the handler evaluated with the clock on day `d`.  The claim is
confirmed.
-/

/-- The stored count the handler reads: `total_feedings` of the first
`daily_stats` row of the date, 0 when none. -/
def storedDailyCount (s : St) (d : Nat) : Nat :=
  ((s.daily.find? (fun r => r.date == d)).map (fun r => r.total_feedings)).getD 0

/-- The live sum the handler recomputes: `SUM(amount)` over the countable
log rows of the date — a function of the log table alone. -/
def liveAmountSum (logs : List LogRow) (d : Nat) : Int :=
  ((logs.filter (fun r => (dateOf r.timestamp == d) && isCountable r.event_type)).map
    (fun r => r.amount)).sum

/-- Claim C8, confirmed: `dailyTotals` returns the stored aggregate count
for the date paired with the amount sum recomputed live from the log
rows; the sum ignores the `daily_stats` table entirely (replacing it
changes nothing), and the three-event scenario returns count 3 and
sum 200. -/
theorem C8_daily_totals :
    (∀ (s : St) (now : Nat),
      get_daily_stats now s =
        (storedDailyCount s (dateOf now), liveAmountSum s.logs (dateOf now))) ∧
    (∀ (s : St) (daily' : List DailyRow) (nd : Nat) (now : Nat),
      (get_daily_stats now { s with daily := daily', nextDailyId := nd }).2 =
        (get_daily_stats now s).2) ∧
    get_daily_stats 0 st3events = (3, 200) := by
  refine ⟨?_, fun s daily' nd now => rfl, by decide⟩
  intro s now
  unfold get_daily_stats storedDailyCount liveAmountSum
  rw [foldl_add_amount, zero_add]

/-!
## Claim C9

`delete_log` runs `DELETE FROM logs WHERE id = ?` and `delete_all_logs`
runs `DELETE FROM logs`; neither statement touches `daily_stats` or
`feeders`, so the aggregates keep their drifted values.  The claim is
confirmed.
-/

/-- Claim C9, confirmed: the two delete endpoints remove exactly the
matching log rows and leave `daily_stats` and `feeders` untouched; after
deleting one of the three recorded events the day's aggregate count is
still 3. -/
theorem C9_delete_frame :
    (∀ (s : St) (logId : Nat),
      (delete_log logId s).daily = s.daily ∧
      (delete_log logId s).feeders = s.feeders ∧
      (delete_log logId s).logs = s.logs.filter (fun r => r.id != logId)) ∧
    (∀ s : St,
      (delete_all_logs s).daily = s.daily ∧
      (delete_all_logs s).feeders = s.feeders ∧
      (delete_all_logs s).logs = []) ∧
    (dailyCount st3events 1 0 = 3 ∧
     (delete_log 1 st3events).logs.length = 2 ∧
     dailyCount (delete_log 1 st3events) 1 0 = 3) :=
  ⟨fun _ _ => ⟨rfl, rfl, rfl⟩, fun _ => ⟨rfl, rfl, rfl⟩,
   by decide, by decide, by decide⟩

/-!
## Claim C10

The duplicate check of `add_feeder` runs after the address is split into
host and port: `SELECT feeder_id FROM feeders WHERE esp32_ip = ? AND
is_active = 1` compares the HOST only, so an address with the same host
and a different port is rejected, and registration keeps the hosts of
active modules pairwise distinct.  Soft-deleting and online-state stamps
preserve the invariant as well (they never touch `esp32_ip`, and
deactivation only shrinks the active set).
-/

/-- No two active rows of the feeders table share a host IP. -/
def ActiveHostsDistinct (s : St) : Prop :=
  s.feeders.Pairwise (fun a b =>
    a.is_active = true → b.is_active = true → a.esp32_ip ≠ b.esp32_ip)

/-- The handler `add_feeder` either leaves the state unchanged (any rejection path)
or, when the duplicate check over active hosts came back empty, appends
exactly the new row. -/
theorem add_feeder_state_cases (form : AddForm) (now : Nat) (s : St) :
    (add_feeder form now s).1 = s ∨
    ∃ ip port, parseAddr form.ip_address = some (ip, port) ∧
      (s.feeders.any (fun f => f.esp32_ip == ip && f.is_active)) = false ∧
      (add_feeder form now s).1 =
        { s with feeders := s.feeders ++ [newFeederRow form ip port s.nextFeederId now],
                 nextFeederId := s.nextFeederId + 1 } := by
  unfold add_feeder
  split
  · exact Or.inl rfl
  · split
    · exact Or.inl rfl
    · rename_i ip port heq
      split
      · exact Or.inl rfl
      · split
        · exact Or.inl rfl
        · rename_i hany
          refine Or.inr ⟨ip, port, heq, ?_, rfl⟩
          revert hany
          cases s.feeders.any (fun f => f.esp32_ip == ip && f.is_active) <;> simp

/-- Claim C10, confirmed: the duplicate check compares only the host part
against active modules — an address whose host an active module claims is
rejected whatever its port — and every modelled feeders-table mutation
(`add_feeder`, `delete_feeder`, `update_feeder_status`) preserves the
invariant that no two active modules share a host IP; concretely,
`10.0.0.1:9090` is rejected while feeder 1 occupies `10.0.0.1:80`. -/
theorem C10_host_unique :
    (∀ (s : St) (now : Nat) (form : AddForm) (ip : String) (port : Int),
      form.name ≠ ("") → form.ip_address ≠ ("") →
      parseAddr form.ip_address = some (ip, port) → validHost ip = true →
      (∃ f ∈ s.feeders, f.is_active = true ∧ f.esp32_ip = ip) →
      (add_feeder form now s).2 =
        AddResult.badRequest ("A feeder with this IP already exists")) ∧
    (∀ (s : St) (now : Nat) (form : AddForm),
      ActiveHostsDistinct s → ActiveHostsDistinct (add_feeder form now s).1) ∧
    (∀ (s : St) (fid : Nat) (now : Nat),
      ActiveHostsDistinct s → ActiveHostsDistinct (delete_feeder fid now s).1) ∧
    (∀ (s : St) (fid : Nat) (b : Bool) (now : Nat),
      ActiveHostsDistinct s → ActiveHostsDistinct (update_feeder_status fid b now s)) ∧
    (add_feeder (addForm ("N") ("10.0.0.1:9090")) 0 st1).2 =
      AddResult.badRequest ("A feeder with this IP already exists") := by
  refine ⟨?_, ?_, ?_, ?_, by decide⟩
  · intro s now form ip port hname hip hparse hhost hdup
    have hcond := add_feeder_cond_false hname hip
    have hany : (s.feeders.any (fun f => f.esp32_ip == ip && f.is_active)) = true := by
      rcases hdup with ⟨f, hf, hact, hfeq⟩
      exact List.any_eq_true.mpr ⟨f, hf, by simp [hfeq, hact]⟩
    simp only [add_feeder, hcond, Bool.false_eq_true, if_false, hparse, hhost,
      Bool.not_true, hany, if_true]
  · intro s now form hd
    rcases add_feeder_state_cases form now s with h | ⟨ip, port, hp, hany, h⟩
    · rw [h]
      exact hd
    · rw [h]
      show (s.feeders ++ [newFeederRow form ip port s.nextFeederId now]).Pairwise _
      refine List.pairwise_append.mpr ⟨hd, by simp, ?_⟩
      intro a hamem b hbmem
      rw [List.mem_singleton.mp hbmem]
      intro haact _ hipeq
      have hip' : a.esp32_ip = ip := hipeq
      have : s.feeders.any (fun f => f.esp32_ip == ip && f.is_active) = true :=
        List.any_eq_true.mpr ⟨a, hamem, by simp [hip', haact]⟩
      rw [this] at hany
      cases hany
  · intro s fid now hd
    unfold delete_feeder
    split
    · exact hd
    · show (s.feeders.map _).Pairwise _
      apply List.Pairwise.map _ _ hd
      intro a b hab h1 h2
      by_cases hxa : (a.feeder_id == fid) = true <;>
        by_cases hxb : (b.feeder_id == fid) = true <;>
          simp only [hxa, hxb, Bool.false_eq_true, if_true, if_false] at h1 h2 ⊢
      · exact absurd h1 (by simp [softDelete])
      · exact absurd h1 (by simp [softDelete])
      · exact absurd h2 (by simp [softDelete])
      · exact hab h1 h2
  · intro s fid b now hd
    show (s.feeders.map _).Pairwise _
    apply List.Pairwise.map _ _ hd
    intro a b' hab h1 h2
    have hipa : ∀ (x : Feeder), ((if x.feeder_id == fid then
        (if b then onlineStamp now x else offlineStamp now x) else x)).esp32_ip =
        x.esp32_ip := by
      intro x
      by_cases hx : (x.feeder_id == fid) = true <;> cases b <;>
        simp [hx, onlineStamp, offlineStamp]
    have hacta : ∀ (x : Feeder), ((if x.feeder_id == fid then
        (if b then onlineStamp now x else offlineStamp now x) else x)).is_active =
        x.is_active := by
      intro x
      by_cases hx : (x.feeder_id == fid) = true <;> cases b <;>
        simp [hx, onlineStamp, offlineStamp]
    rw [hacta a] at h1
    rw [hacta b'] at h2
    rw [hipa a, hipa b']
    exact hab h1 h2

/-- Witness for C10: the same-host different-port rejection on the
one-feeder database, and invariant preservation on a successful insert
there. -/
theorem C10_host_unique_witness :
    (add_feeder (addForm ("N") ("10.0.0.1:9090")) 0 st1).2 =
      AddResult.badRequest ("A feeder with this IP already exists") ∧
    ActiveHostsDistinct (add_feeder (addForm ("Module B") ("10.0.0.2")) 0 st1).1 :=
  ⟨C10_host_unique.1 st1 0 (addForm ("N") ("10.0.0.1:9090")) ("10.0.0.1") 9090
     (by decide) (by decide) (by decide) (by decide) (by decide),
   C10_host_unique.2.1 st1 0 (addForm ("Module B") ("10.0.0.2"))
     (by unfold ActiveHostsDistinct
         rw [show st1.feeders = [fA] from by decide]
         simp)⟩
